import Mathlib

/-!
Shallow embedding of the expense-tracker request-handling and persistence
layer (src/main.go of jkimunyi-dev/expense_tracker_backend).

Conventions of the embedding:
* Timestamps (the TIMESTAMP columns and Go time.Time values) are modelled as
  integers ordered by the usual order; only their ordering matters here.
* Amounts (Go float64 / DECIMAL(10,2)) are modelled as integers; no claim
  performs arithmetic on amounts, only storage and retrieval.
* The PostgreSQL engine is an external collaborator; its per-statement
  semantics (serial id assignment, UPDATE/DELETE rows-affected counts,
  ORDER BY, unique constraints) are modelled explicitly below.
* A decoded request body is `Except String X`: `.error msg` is the failed
  json.Decode carrying the error text, `.ok` the decoded value.
-/

namespace ExpenseTracker

/-- The Expense struct of main.go: ID, Description, Amount, Category, Date. -/
structure Expense where
  id : Int
  description : String
  amount : Int
  category : String
  date : Int
deriving DecidableEq

/-- The expenses table: rows in natural (insertion) order, plus the state of
the SERIAL id sequence (next value to assign; starts at 1). -/
structure ExpenseStore where
  rows : List Expense
  nextId : Int
deriving DecidableEq

/-- JSON values, for the response bodies produced by encoding/json. -/
inductive Json where
  | null : Json
  | str : String → Json
  | num : Int → Json
  | arr : List Json → Json
  | obj : List (String × Json) → Json

/-- An HTTP response body: either plain text (http.Error / empty body) or a
JSON document written by json.NewEncoder(w).Encode. -/
inductive Body where
  | text : String → Body
  | json : Json → Body

/-- An HTTP response: status code and body. -/
abbrev Response := Nat × Body

/-- encoding/json on the Expense struct: field order ID, Description, Amount,
Category, Date with the tags of main.go. -/
def encodeExpense (e : Expense) : Json :=
  Json.obj [("id", Json.num e.id), ("description", Json.str e.description),
    ("amount", Json.num e.amount), ("category", Json.str e.category),
    ("date", Json.num e.date)]

/-- encoding/json on the handler's accumulated slice. getExpenses declares
var expenses []Expense, the nil slice, and appends one element per row, so
the slice is nil exactly when there were zero rows; encoding/json encodes a
nil slice as JSON null and a non-nil slice as a JSON array. -/
def encodeExpenseRows (rows : List Expense) : Json :=
  match rows with
  | [] => Json.null
  | _ :: _ => Json.arr (rows.map encodeExpense)

/-- Ordering used by the SELECT: row a may precede row b when b.date <= a.date
(date descending). -/
def dateDesc (a b : Expense) : Prop := b.date ≤ a.date

instance : DecidableRel dateDesc := fun a b => inferInstanceAs (Decidable (b.date ≤ a.date))

instance : IsTotal Expense dateDesc := ⟨fun a b => Int.le_total b.date a.date⟩

instance : IsTrans Expense dateDesc := ⟨fun _ _ _ h1 h2 => le_trans h2 h1⟩

/-- Postgres semantics of SELECT id, description, amount, category, date FROM
expenses ORDER BY date DESC: the stored rows, sorted by date descending (a
stable sort: ties stay in natural row order, which the spec leaves open). -/
def selectExpensesByDateDesc (s : ExpenseStore) : List Expense :=
  List.insertionSort dateDesc s.rows

/-- Postgres semantics of INSERT INTO expenses (description, amount, category,
date) VALUES ($1,$2,$3,$4) RETURNING id: the SERIAL column assigns the next
sequence value, the row is appended, and the assigned id is returned. -/
def insertExpense (s : ExpenseStore) (d : String) (a : Int) (c : String) (dt : Int) :
    Int × ExpenseStore :=
  (s.nextId,
   { rows := s.rows ++ [{ id := s.nextId, description := d, amount := a, category := c, date := dt }],
     nextId := s.nextId + 1 })

/-- Postgres semantics of UPDATE expenses SET description=$1, amount=$2,
category=$3, date=$4 WHERE id=$5: overwrite the four columns of every row
whose id matches, and report the number of rows affected. -/
def updateWhereId (s : ExpenseStore) (i : Int) (d : String) (a : Int) (c : String) (dt : Int) :
    Nat × ExpenseStore :=
  (s.rows.countP (fun e => e.id == i),
   { rows := s.rows.map (fun e =>
       if e.id == i then { e with description := d, amount := a, category := c, date := dt } else e),
     nextId := s.nextId })

/-- Postgres semantics of DELETE FROM expenses WHERE id=$1: remove every row
whose id matches and report the number of rows affected. -/
def deleteWhereId (s : ExpenseStore) (i : Int) : Nat × ExpenseStore :=
  (s.rows.countP (fun e => e.id == i),
   { rows := s.rows.filter (fun e => !(e.id == i)), nextId := s.nextId })

def isDigitChar (c : Char) : Bool := '0' ≤ c && c ≤ '9'

def digitsToNat (acc : Nat) : List Char → Option Nat
  | [] => some acc
  | c :: cs => if isDigitChar c then digitsToNat (acc * 10 + (c.toNat - 48)) cs else none

/-- Modelled from the spec: the path identifier is bound as text by the store
driver (code absent from src/, it lives in the pgx library); the spec fixes
the contract as: a textual identifier is an optionally signed digit string,
and a non-numeric identifier is treated as matching no row rather than as a
distinct error class. -/
def parsePgInt (s : String) : Option Int :=
  match s.data with
  | [] => none
  | '-' :: rest =>
    match rest with
    | [] => none
    | _ :: _ => (digitsToNat 0 rest).map (fun n => -(n : Int))
  | '+' :: rest =>
    match rest with
    | [] => none
    | _ :: _ => (digitsToNat 0 rest).map (fun n => (n : Int))
  | l => (digitsToNat 0 l).map (fun n => (n : Int))

/-- Modelled from the spec: executing the UPDATE with the raw textual path
identifier; a non-numeric identifier matches no row (zero rows affected). -/
def execUpdateRawId (s : ExpenseStore) (idStr : String) (d : String) (a : Int) (c : String)
    (dt : Int) : Nat × ExpenseStore :=
  match parsePgInt idStr with
  | none => (0, s)
  | some i => updateWhereId s i d a c dt

/-- Modelled from the spec: executing the DELETE with the raw textual path
identifier; a non-numeric identifier matches no row (zero rows affected). -/
def execDeleteRawId (s : ExpenseStore) (idStr : String) : Nat × ExpenseStore :=
  match parsePgInt idStr with
  | none => (0, s)
  | some i => deleteWhereId s i

/-- getExpenses (main.go 187-209): query ORDER BY date DESC, scan every row
into the (initially nil) slice, respond 200 with the encoded slice. -/
def getExpenses (s : ExpenseStore) : Response :=
  (200, Body.json (encodeExpenseRows (selectExpensesByDateDesc s)))

/-- createExpense (main.go 211-231): decode the body (400 with the decode
error text on failure), INSERT ... RETURNING id, Scan the assigned id into
expense.ID, respond 201 with the encoded record. -/
def createExpense (body : Except String Expense) (s : ExpenseStore) :
    Response × ExpenseStore :=
  match body with
  | .error msg => ((400, Body.text msg), s)
  | .ok expense =>
    let r := insertExpense s expense.description expense.amount expense.category expense.date
    ((201, Body.json (encodeExpense { expense with id := r.1 })), r.2)

/-- updateExpense (main.go 233-259): read the raw path id, decode the body
(400 on failure), run the UPDATE, 404 when zero rows were affected, else 200
with empty body. -/
def updateExpense (idStr : String) (body : Except String Expense) (s : ExpenseStore) :
    Response × ExpenseStore :=
  match body with
  | .error msg => ((400, Body.text msg), s)
  | .ok expense =>
    let r := execUpdateRawId s idStr expense.description expense.amount expense.category expense.date
    if r.1 = 0 then ((404, Body.text "Expense not found"), r.2)
    else ((200, Body.text ""), r.2)

/-- deleteExpense (main.go 261-280): read the raw path id, run the DELETE,
404 when zero rows were affected, else 204 with empty body. -/
def deleteExpense (idStr : String) (s : ExpenseStore) : Response × ExpenseStore :=
  let r := execDeleteRawId s idStr
  if r.1 = 0 then ((404, Body.text "Expense not found"), r.2)
  else ((204, Body.text ""), r.2)

/-- The User struct of main.go: ID, Username, Email, Password (json tag
"password,omitempty"), PasswordHash (json tag "-"), CreatedAt. -/
structure GoUser where
  id : Int
  username : String
  email : String
  password : String
  passwordHash : String
  createdAt : Int
deriving DecidableEq

/-- One row of the users table. -/
structure UserRow where
  id : Int
  username : String
  email : String
  passwordHash : String
  createdAt : Int
deriving DecidableEq

/-- A PostgreSQL statement failure as surfaced by the driver: the structured
SQLSTATE code and the rendered error text (what err.Error() yields in Go). -/
structure PgError where
  code : String
  message : String
deriving DecidableEq

/-- The users table: rows, the SERIAL id sequence state, the timestamp
CURRENT_TIMESTAMP would assign to the next insert, and an environment-chosen
fault: when fault is some e, the next statement against this table fails
with e (this models the non-constraint insert failures the spec calls
StoreError, e.g. a dropped connection). -/
structure UserStore where
  users : List UserRow
  nextId : Int
  now : Int
  fault : Option PgError
deriving DecidableEq

/-- Does the second char list occur at the head of the first? -/
def charsLead : List Char → List Char → Bool
  | [], _ => true
  | _ :: _, [] => false
  | a :: as, b :: bs => a == b && charsLead as bs

/-- Does the needle occur anywhere inside the hay? -/
def charsHaveSub (needle : List Char) : List Char → Bool
  | [] => charsLead needle []
  | b :: t => charsLead needle (b :: t) || charsHaveSub needle t

/-- Go strings.Contains(hay, needle). -/
def strContainsSub (hay needle : String) : Bool :=
  charsHaveSub needle.data hay.data

/-- The substring signup's error classification looks for. -/
def uniqueNeedle : String := "unique constraint"

/-- Postgres semantics of INSERT INTO users (username, email, password_hash)
VALUES ($1,$2,$3) RETURNING id, created_at: the UNIQUE constraints on
username and email reject a duplicate with the standard duplicate-key error
(SQLSTATE 23505, message naming the violated unique constraint) and leave
the table unchanged; otherwise the row is inserted with the next serial id
and the CURRENT_TIMESTAMP default, both returned. -/
def insertUser (s : UserStore) (un em ph : String) :
    Except PgError (Int × Int) × UserStore :=
  match s.fault with
  | some e => (Except.error e, s)
  | none =>
  if s.users.any (fun u => u.username == un) then
    (Except.error (PgError.mk "23505"
      "ERROR: duplicate key value violates unique constraint \"users_username_key\" (SQLSTATE 23505)"), s)
  else if s.users.any (fun u => u.email == em) then
    (Except.error (PgError.mk "23505"
      "ERROR: duplicate key value violates unique constraint \"users_email_key\" (SQLSTATE 23505)"), s)
  else
    (Except.ok (s.nextId, s.now),
     { users := s.users ++
         [{ id := s.nextId, username := un, email := em, passwordHash := ph, createdAt := s.now }],
       nextId := s.nextId + 1, now := s.now, fault := none })

/-- encoding/json on the User struct after the handler cleared the credential
fields: the "-" tag always drops PasswordHash, and "omitempty" drops Password
exactly when it is the empty string. -/
def encodeUser (u : GoUser) : Json :=
  Json.obj ([("id", Json.num u.id), ("username", Json.str u.username),
    ("email", Json.str u.email)]
    ++ (if u.password = "" then [] else [("password", Json.str u.password)])
    ++ [("created_at", Json.num u.createdAt)])

/-- The insert-failure branch of signup (main.go 304-311): 409 with a fixed
reason when the error text has "unique constraint" as a substring, else 500
echoing the error text. -/
def classifyInsertFailure (e : PgError) : Response :=
  if strContainsSub e.message uniqueNeedle then
    (409, Body.text "Username or email already exists")
  else
    (500, Body.text e.message)

/-- signup (main.go 282-320): decode the body (400 with the decode error text
on failure), hash the password with bcrypt (modelled as the function
parameter bcryptHash), INSERT the user, classify an insert failure, and on
success clear Password and PasswordHash before responding 201 with the
encoded user carrying the assigned id and created_at. -/
def signup (bcryptHash : String → String) (body : Except String GoUser) (s : UserStore) :
    Response × UserStore :=
  match body with
  | .error msg => ((400, Body.text msg), s)
  | .ok user =>
    let hashed := bcryptHash user.password
    let r := insertUser s user.username user.email hashed
    match r.1 with
    | .error e => (classifyInsertFailure e, r.2)
    | .ok assigned =>
      let u2 := { user with
        id := assigned.1, createdAt := assigned.2, password := "", passwordHash := "" }
      ((201, Body.json (encodeUser u2)), r.2)

/-! Theorems. -/

theorem beq_id_false_of_ne {a b : Int} (h : a ≠ b) : (a == b) = false :=
  beq_eq_false_iff_ne.mpr h

/-- C8: a request body that fails to decode yields 400 carrying the decode
error text, and the store is left exactly as it was, for createExpense,
updateExpense, and signup alike. -/
theorem malformed_body_rejected_without_write (msg : String) (idStr : String)
    (s : ExpenseStore) (us : UserStore) (bcryptHash : String → String) :
    createExpense (Except.error msg) s = ((400, Body.text msg), s) ∧
    updateExpense idStr (Except.error msg) s = ((400, Body.text msg), s) ∧
    signup bcryptHash (Except.error msg) us = ((400, Body.text msg), us) :=
  ⟨rfl, rfl, rfl⟩

/-- C5: a path identifier that does not bind as an integer behaves exactly
like an absent row: both updateExpense and deleteExpense answer 404 with the
not-found reason and leave the store unchanged, rather than any distinct
bad-request or store-error outcome. -/
theorem non_numeric_id_treated_as_not_found (idStr : String) (exp : Expense)
    (s : ExpenseStore) (hnon : parsePgInt idStr = none) :
    updateExpense idStr (Except.ok exp) s = ((404, Body.text "Expense not found"), s) ∧
    deleteExpense idStr s = ((404, Body.text "Expense not found"), s) := by
  constructor
  · simp [updateExpense, execUpdateRawId, hnon]
  · simp [deleteExpense, execDeleteRawId, hnon]

/-- Witness for C5 at the concrete identifier "abc". -/
theorem non_numeric_id_treated_as_not_found_witness :
    parsePgInt "abc" = none ∧
    deleteExpense "abc" { rows := [], nextId := 1 } =
      ((404, Body.text "Expense not found"), { rows := [], nextId := 1 }) :=
  ⟨by decide,
   (non_numeric_id_treated_as_not_found "abc" ⟨0, "", 0, "", 0⟩
     { rows := [], nextId := 1 } (by decide)).2⟩

/-- C3: updating an identifier that matches no stored row answers 404 with
the not-found reason and leaves the store exactly unchanged; in particular
no record is ever created by an update. -/
theorem update_nonexistent_not_found (idStr : String) (exp : Expense) (s : ExpenseStore)
    (hnom : ∀ e ∈ s.rows, parsePgInt idStr ≠ some e.id) :
    updateExpense idStr (Except.ok exp) s = ((404, Body.text "Expense not found"), s) := by
  obtain ⟨rows, nid⟩ := s
  cases hp : parsePgInt idStr with
  | none => simp [updateExpense, execUpdateRawId, hp]
  | some i =>
    have hall : ∀ e ∈ rows, (e.id == i) = false := by
      intro e he
      have h1 := hnom e he
      rw [hp] at h1
      exact beq_id_false_of_ne fun h => h1 (by rw [h])
    have hcnt : rows.countP (fun e => e.id == i) = 0 :=
      List.countP_eq_zero.mpr (by intro e he; simp [hall e he])
    have hmap : rows.map (fun e =>
        if e.id == i then
          { e with description := exp.description, amount := exp.amount,
                   category := exp.category, date := exp.date }
        else e) = rows := by
      conv_rhs => rw [← List.map_id rows]
      exact List.map_congr_left (by intro e he; simp [hall e he])
    simp only [updateExpense, execUpdateRawId, hp, updateWhereId, hcnt, hmap]
    rfl

/-- Witness for C3 at a concrete store holding one row with id 3 and the
absent identifier "7". -/
theorem update_nonexistent_not_found_witness :
    updateExpense "7" (Except.ok ⟨0, "x", 1, "c", 2⟩)
      { rows := [⟨3, "a", 2, "b", 3⟩], nextId := 4 } =
      ((404, Body.text "Expense not found"), { rows := [⟨3, "a", 2, "b", 3⟩], nextId := 4 }) :=
  update_nonexistent_not_found "7" ⟨0, "x", 1, "c", 2⟩
    { rows := [⟨3, "a", 2, "b", 3⟩], nextId := 4 } (by decide)

/-- C10: when the INSERT against the users table fails, signup classifies
the failure exclusively by the rendered error text: 409 exactly when the
text has "unique constraint" as a substring, 500 echoing the text otherwise,
with the structured SQLSTATE code ignored. -/
theorem signup_insert_failure_classified_by_message_text (bcryptHash : String → String)
    (user : GoUser) (s : UserStore) (e : PgError) (hf : s.fault = some e) :
    signup bcryptHash (Except.ok user) s = (classifyInsertFailure e, s) ∧
    classifyInsertFailure e =
      (if strContainsSub e.message uniqueNeedle then
        (409, Body.text "Username or email already exists")
       else (500, Body.text e.message)) ∧
    (∀ c : String, classifyInsertFailure ⟨c, e.message⟩ = classifyInsertFailure e) := by
  refine ⟨?_, rfl, fun c => rfl⟩
  simp [signup, insertUser, hf]

/-- Witness for C10 at a concrete non-constraint failure. -/
theorem signup_insert_failure_classified_witness :
    signup (fun _ => "h") (Except.ok ⟨0, "bob", "bob@x.io", "pw", "", 0⟩)
      { users := [], nextId := 1, now := 0, fault := some ⟨"08006", "connection refused"⟩ } =
      ((500, Body.text "connection refused"),
       { users := [], nextId := 1, now := 0, fault := some ⟨"08006", "connection refused"⟩ }) := by
  have h := signup_insert_failure_classified_by_message_text (fun _ => "h")
    ⟨0, "bob", "bob@x.io", "pw", "", 0⟩
    { users := [], nextId := 1, now := 0, fault := some ⟨"08006", "connection refused"⟩ }
    ⟨"08006", "connection refused"⟩ rfl
  rw [h.1, h.2.1, if_neg]
  decide

/-- C6: signup against a store already holding the requested username or
email fails the INSERT on a unique constraint and answers 409 with the fixed
conflict reason, leaving the store unchanged, so a store holding exactly one
account for that username still holds exactly one; and any insert failure
whose error text lacks the "unique constraint" substring is answered 500
echoing that text. -/
theorem signup_duplicate_conflict (bcryptHash : String → String)
    (user : GoUser) (s : UserStore) :
    (s.fault = none →
      ((∃ u ∈ s.users, u.username = user.username) ∨ (∃ u ∈ s.users, u.email = user.email)) →
      signup bcryptHash (Except.ok user) s =
        ((409, Body.text "Username or email already exists"), s)) ∧
    (s.fault = none →
      ((∃ u ∈ s.users, u.username = user.username) ∨ (∃ u ∈ s.users, u.email = user.email)) →
      s.users.countP (fun u => u.username == user.username) = 1 →
      ((signup bcryptHash (Except.ok user) s).2).users.countP
        (fun u => u.username == user.username) = 1) ∧
    (∀ e : PgError, s.fault = some e → strContainsSub e.message uniqueNeedle = false →
      signup bcryptHash (Except.ok user) s = ((500, Body.text e.message), s)) := by
  have main : s.fault = none →
      ((∃ u ∈ s.users, u.username = user.username) ∨ (∃ u ∈ s.users, u.email = user.email)) →
      signup bcryptHash (Except.ok user) s =
        ((409, Body.text "Username or email already exists"), s) := by
    intro hf hdup
    by_cases hu : s.users.any (fun u => u.username == user.username) = true
    · have hc : strContainsSub
          "ERROR: duplicate key value violates unique constraint \"users_username_key\" (SQLSTATE 23505)"
          uniqueNeedle = true := by decide
      simp only [signup, insertUser, hf, hu]
      simp [classifyInsertFailure, hc]
    · have hu' : s.users.any (fun u => u.username == user.username) = false := by
        simpa using hu
      have he : s.users.any (fun u => u.email == user.email) = true := by
        rcases hdup with ⟨u, hmem, heq⟩ | ⟨u, hmem, heq⟩
        · exact absurd (List.any_eq_true.mpr ⟨u, hmem, by simp [heq]⟩) hu
        · exact List.any_eq_true.mpr ⟨u, hmem, by simp [heq]⟩
      have hc : strContainsSub
          "ERROR: duplicate key value violates unique constraint \"users_email_key\" (SQLSTATE 23505)"
          uniqueNeedle = true := by decide
      simp only [signup, insertUser, hf, hu', he]
      simp [classifyInsertFailure, hc]
  refine ⟨main, ?_, ?_⟩
  · intro hf hdup hcnt
    rw [main hf hdup]
    exact hcnt
  · intro e hf hno
    simp only [signup, insertUser, hf]
    simp [classifyInsertFailure, hno]

/-- Witness for C6: a duplicate username against a one-account store, and a
non-constraint failure. -/
theorem signup_duplicate_conflict_witness :
    signup (fun _ => "h2") (Except.ok ⟨0, "bob", "new@x.io", "pw", "", 0⟩)
      { users := [⟨1, "bob", "bob@x.io", "h", 5⟩], nextId := 2, now := 9, fault := none } =
      ((409, Body.text "Username or email already exists"),
       { users := [⟨1, "bob", "bob@x.io", "h", 5⟩], nextId := 2, now := 9, fault := none }) ∧
    (({ users := [⟨1, "bob", "bob@x.io", "h", 5⟩], nextId := 2, now := 9,
        fault := none } : UserStore).users.countP (fun u => u.username == "bob") = 1) ∧
    signup (fun _ => "h2") (Except.ok ⟨0, "ann", "ann@x.io", "pw", "", 0⟩)
      { users := [], nextId := 1, now := 0, fault := some ⟨"08006", "connection refused"⟩ } =
      ((500, Body.text "connection refused"),
       { users := [], nextId := 1, now := 0, fault := some ⟨"08006", "connection refused"⟩ }) :=
  ⟨(signup_duplicate_conflict (fun _ => "h2") ⟨0, "bob", "new@x.io", "pw", "", 0⟩
      { users := [⟨1, "bob", "bob@x.io", "h", 5⟩], nextId := 2, now := 9, fault := none }).1
    rfl (Or.inl ⟨⟨1, "bob", "bob@x.io", "h", 5⟩, by simp, rfl⟩),
   by decide,
   (signup_duplicate_conflict (fun _ => "h2") ⟨0, "ann", "ann@x.io", "pw", "", 0⟩
      { users := [], nextId := 1, now := 0, fault := some ⟨"08006", "connection refused"⟩ }).2.2
    ⟨"08006", "connection refused"⟩ rfl (by decide)⟩

/-- C7: a successful signup responds 201 with a User JSON object consisting
of exactly the fields id, username, email, and created_at; the handler
clears Password and PasswordHash before encoding and the encoder drops both
fields, so neither the plain password nor the hash appears in the body. -/
theorem signup_success_excludes_credentials (bcryptHash : String → String) (user : GoUser)
    (s : UserStore) (hf : s.fault = none)
    (hun : s.users.any (fun u => u.username == user.username) = false)
    (hem : s.users.any (fun u => u.email == user.email) = false) :
    (signup bcryptHash (Except.ok user) s).1 =
      (201, Body.json (Json.obj [("id", Json.num s.nextId),
        ("username", Json.str user.username), ("email", Json.str user.email),
        ("created_at", Json.num s.now)])) := by
  simp [signup, insertUser, hf, hun, hem, encodeUser]

/-- Witness for C7 at a concrete signup against the empty store. -/
theorem signup_success_excludes_credentials_witness :
    (signup (fun p => p ++ "#hash") (Except.ok ⟨0, "bob", "bob@x.io", "pw", "", 0⟩)
      { users := [], nextId := 1, now := 7, fault := none }).1 =
      (201, Body.json (Json.obj [("id", Json.num 1), ("username", Json.str "bob"),
        ("email", Json.str "bob@x.io"), ("created_at", Json.num 7)])) :=
  signup_success_excludes_credentials (fun p => p ++ "#hash")
    ⟨0, "bob", "bob@x.io", "pw", "", 0⟩
    { users := [], nextId := 1, now := 7, fault := none } rfl (by decide) (by decide)

/-- Well-formedness of the expenses table, maintained by the SERIAL column:
the sequence is at least 1 and strictly above every stored id. -/
def ExpenseStore.WF (s : ExpenseStore) : Prop :=
  1 ≤ s.nextId ∧ ∀ e ∈ s.rows, e.id < s.nextId

/-- C2: a create whose body decodes responds 201 with the full persisted
record carrying the store-assigned identifier, which is non-zero, distinct
from the identifier of every record already in the store, and keeps the
stored identifiers pairwise distinct; the row is appended and the serial
invariant is preserved. -/
theorem create_assigns_fresh_nonzero_id (exp : Expense) (s : ExpenseStore) (hwf : s.WF) :
    ((createExpense (Except.ok exp) s).1).1 = 201 ∧
    ((createExpense (Except.ok exp) s).1).2 =
      Body.json (encodeExpense { exp with id := s.nextId }) ∧
    s.nextId ≠ 0 ∧
    (∀ e ∈ s.rows, e.id ≠ s.nextId) ∧
    ((createExpense (Except.ok exp) s).2).rows = s.rows ++ [{ exp with id := s.nextId }] ∧
    ExpenseStore.WF ((createExpense (Except.ok exp) s).2) ∧
    ((s.rows.map Expense.id).Nodup →
      ((((createExpense (Except.ok exp) s).2).rows.map Expense.id)).Nodup) := by
  obtain ⟨h1, h2⟩ := hwf
  refine ⟨rfl, rfl, by omega, fun e he => by have := h2 e he; omega, rfl, ⟨?_, ?_⟩, ?_⟩
  · show (1 : Int) ≤ s.nextId + 1
    omega
  · intro e he
    rcases List.mem_append.mp he with h | h
    · have := h2 e h
      show e.id < s.nextId + 1
      omega
    · have hx : e = { exp with id := s.nextId } := by simpa using h
      rw [hx]
      show s.nextId < s.nextId + 1
      omega
  · intro hnd
    show ((s.rows ++ [{ exp with id := s.nextId }]).map Expense.id).Nodup
    rw [List.map_append, List.nodup_append]
    refine ⟨hnd, List.nodup_singleton _, ?_⟩
    intro a ha hb
    rcases List.mem_map.mp ha with ⟨e, he, rfl⟩
    have hlt := h2 e he
    have hb' : e.id = s.nextId := by simpa using hb
    omega

/-- Witness for C2 at a concrete one-row store. -/
theorem create_assigns_fresh_nonzero_id_witness :
    ExpenseStore.WF { rows := [⟨1, "a", 2, "b", 3⟩], nextId := 2 } ∧
    ((createExpense (Except.ok ⟨0, "Coffee", 450, "Food", 10⟩)
       { rows := [⟨1, "a", 2, "b", 3⟩], nextId := 2 }).1).1 = 201 ∧
    (∀ e ∈ ({ rows := [⟨1, "a", 2, "b", 3⟩], nextId := 2 } : ExpenseStore).rows, e.id ≠ 2) :=
  ⟨by constructor
      · decide
      · decide,
   (create_assigns_fresh_nonzero_id ⟨0, "Coffee", 450, "Food", 10⟩
      { rows := [⟨1, "a", 2, "b", 3⟩], nextId := 2 } ⟨by decide, by decide⟩).1,
   (create_assigns_fresh_nonzero_id ⟨0, "Coffee", 450, "Food", 10⟩
      { rows := [⟨1, "a", 2, "b", 3⟩], nextId := 2 } ⟨by decide, by decide⟩).2.2.2.1⟩

/-- C4: deleting a bound identifier with a matching row answers 204, removes
every row matching the identifier and no other (each non-matching row
survives unchanged, each surviving row is an original non-matching row),
leaving zero rows for that identifier; with no matching row it answers 404
and leaves the store unchanged, the two outcomes decided by the rows-affected
count being zero. -/
theorem delete_removes_exactly_matching_row (idStr : String) (i : Int) (s : ExpenseStore)
    (hp : parsePgInt idStr = some i) :
    ((∃ e ∈ s.rows, e.id = i) →
      deleteExpense idStr s =
        ((204, Body.text ""),
         { rows := s.rows.filter (fun e => !(e.id == i)), nextId := s.nextId }) ∧
      ((deleteExpense idStr s).2).rows.countP (fun e => e.id == i) = 0 ∧
      (∀ e ∈ s.rows, e.id ≠ i → e ∈ ((deleteExpense idStr s).2).rows) ∧
      (∀ e ∈ ((deleteExpense idStr s).2).rows, e ∈ s.rows ∧ e.id ≠ i)) ∧
    ((∀ e ∈ s.rows, e.id ≠ i) →
      deleteExpense idStr s = ((404, Body.text "Expense not found"), s)) := by
  obtain ⟨rows, nid⟩ := s
  constructor
  · intro hex
    obtain ⟨e0, he0, heq0⟩ := hex
    have hcnt : rows.countP (fun e => e.id == i) ≠ 0 := by
      have : 0 < rows.countP (fun e => e.id == i) :=
        List.countP_pos_iff.mpr ⟨e0, he0, by simpa using heq0⟩
      omega
    have hdel : deleteExpense idStr ⟨rows, nid⟩ =
        ((204, Body.text ""), { rows := rows.filter (fun e => !(e.id == i)), nextId := nid }) := by
      simp only [deleteExpense, execDeleteRawId, hp, deleteWhereId]
      rw [if_neg hcnt]
    refine ⟨hdel, ?_, ?_, ?_⟩
    · rw [hdel]
      refine List.countP_eq_zero.mpr ?_
      intro e he
      have h2 := (List.mem_filter.mp he).2
      simp at h2 ⊢
      exact h2
    · intro e he hne
      rw [hdel]
      exact List.mem_filter.mpr ⟨he, by simp [hne]⟩
    · intro e he
      rw [hdel] at he
      have h' := List.mem_filter.mp he
      exact ⟨h'.1, by simpa using h'.2⟩
  · intro hnone
    have hcnt : rows.countP (fun e => e.id == i) = 0 :=
      List.countP_eq_zero.mpr (by intro e he; simp [hnone e he])
    have hfil : rows.filter (fun e => !(e.id == i)) = rows :=
      List.filter_eq_self.mpr (by intro e he; simp [hnone e he])
    simp only [deleteExpense, execDeleteRawId, hp, deleteWhereId, hcnt, hfil]
    rfl

/-- Witness for C4: deleting id 1 from a two-row store, and deleting the
absent id 9. -/
theorem delete_removes_exactly_matching_row_witness :
    parsePgInt "1" = some 1 ∧
    deleteExpense "1" { rows := [⟨1, "a", 2, "b", 3⟩, ⟨2, "c", 4, "d", 5⟩], nextId := 3 } =
      ((204, Body.text ""), { rows := [⟨2, "c", 4, "d", 5⟩], nextId := 3 }) ∧
    deleteExpense "9" { rows := [⟨1, "a", 2, "b", 3⟩], nextId := 2 } =
      ((404, Body.text "Expense not found"), { rows := [⟨1, "a", 2, "b", 3⟩], nextId := 2 }) :=
  ⟨by decide,
   ((delete_removes_exactly_matching_row "1" 1
      { rows := [⟨1, "a", 2, "b", 3⟩, ⟨2, "c", 4, "d", 5⟩], nextId := 3 } (by decide)).1
     ⟨⟨1, "a", 2, "b", 3⟩, by simp, rfl⟩).1.trans rfl,
   (delete_removes_exactly_matching_row "9" 9
      { rows := [⟨1, "a", 2, "b", 3⟩], nextId := 2 } (by decide)).2 (by decide)⟩

theorem updateExpense_ok_snd_rows (idStr : String) (exp : Expense) (s : ExpenseStore) :
    ((updateExpense idStr (Except.ok exp) s).2).rows =
      (execUpdateRawId s idStr exp.description exp.amount exp.category exp.date).2.rows := by
  unfold updateExpense
  dsimp only
  split <;> rfl

/-- C1 counterexample: on the empty store the handler succeeds, but the body
is the JSON null produced by encoding the nil Go slice, not an empty JSON
array. -/
theorem list_empty_store_body_null_not_array :
    (getExpenses { rows := [], nextId := 1 }).2 = Body.json Json.null ∧
    Body.json Json.null ≠ Body.json (Json.arr []) := by
  refine ⟨rfl, fun h => ?_⟩
  injection h with h2
  exact Json.noConfusion h2

/-- C1 amended: listing always succeeds with status 200 and serves exactly
the stored rows (a permutation) sorted by date descending (positions i < j
have date at i at least date at j); on an empty store the body is JSON null
(the encoding of the nil Go slice) rather than an empty array, and on a
non-empty store it is the JSON array of the sorted rows. -/
theorem list_sorted_desc_and_total (s : ExpenseStore) :
    (getExpenses s).1 = 200 ∧
    (selectExpensesByDateDesc s).Perm s.rows ∧
    (∀ (i j : Nat) (hij : i < j) (hj : j < (selectExpensesByDateDesc s).length),
      ((selectExpensesByDateDesc s).get ⟨j, hj⟩).date ≤
        ((selectExpensesByDateDesc s).get ⟨i, Nat.lt_trans hij hj⟩).date) ∧
    (s.rows = [] → (getExpenses s).2 = Body.json Json.null) ∧
    (s.rows ≠ [] →
      (getExpenses s).2 =
        Body.json (Json.arr ((selectExpensesByDateDesc s).map encodeExpense))) := by
  refine ⟨rfl, List.perm_insertionSort dateDesc s.rows, ?_, ?_, ?_⟩
  · intro i j hij hj
    have hs : List.Sorted dateDesc (selectExpensesByDateDesc s) :=
      List.sorted_insertionSort dateDesc s.rows
    exact hs.rel_get_of_lt
      (show (⟨i, Nat.lt_trans hij hj⟩ : Fin (selectExpensesByDateDesc s).length) < ⟨j, hj⟩ from hij)
  · intro h
    simp [getExpenses, selectExpensesByDateDesc, h, encodeExpenseRows]
  · intro h
    have hne : selectExpensesByDateDesc s ≠ [] := by
      intro h0
      have hperm := List.perm_insertionSort dateDesc s.rows
      rw [show List.insertionSort dateDesc s.rows = selectExpensesByDateDesc s from rfl, h0] at hperm
      exact h hperm.symm.eq_nil
    cases hsel : selectExpensesByDateDesc s with
    | nil => exact absurd hsel hne
    | cons a t =>
      simp [getExpenses, encodeExpenseRows, hsel]

/-- Witness for C1 at a two-row store, the empty store, and a one-row
store. -/
theorem list_sorted_desc_and_total_witness :
    (getExpenses { rows := [⟨1, "a", 2, "b", 3⟩, ⟨2, "c", 4, "d", 9⟩], nextId := 3 }).1 = 200 ∧
    ((selectExpensesByDateDesc
        { rows := [⟨1, "a", 2, "b", 3⟩, ⟨2, "c", 4, "d", 9⟩], nextId := 3 }).get
      ⟨1, by decide⟩).date ≤
      ((selectExpensesByDateDesc
          { rows := [⟨1, "a", 2, "b", 3⟩, ⟨2, "c", 4, "d", 9⟩], nextId := 3 }).get
        ⟨0, by decide⟩).date ∧
    (getExpenses { rows := [], nextId := 1 }).2 = Body.json Json.null ∧
    (getExpenses { rows := [⟨1, "a", 2, "b", 3⟩], nextId := 2 }).2 =
      Body.json (Json.arr ((selectExpensesByDateDesc
        { rows := [⟨1, "a", 2, "b", 3⟩], nextId := 2 }).map encodeExpense)) :=
  ⟨(list_sorted_desc_and_total { rows := [⟨1, "a", 2, "b", 3⟩, ⟨2, "c", 4, "d", 9⟩], nextId := 3 }).1,
   (list_sorted_desc_and_total
      { rows := [⟨1, "a", 2, "b", 3⟩, ⟨2, "c", 4, "d", 9⟩], nextId := 3 }).2.2.1
     0 1 (by decide) (by decide),
   (list_sorted_desc_and_total { rows := [], nextId := 1 }).2.2.2.1 rfl,
   (list_sorted_desc_and_total { rows := [⟨1, "a", 2, "b", 3⟩], nextId := 2 }).2.2.2.2 (by decide)⟩

/-- C9 counterexample: createExpense accepts an empty description: the
create succeeds with 201 and the store then holds a record whose description
is the empty string. -/
theorem create_accepts_empty_description :
    (((createExpense (Except.ok ⟨0, "", 450, "Food", 10⟩) { rows := [], nextId := 1 }).1).1
      = 201) ∧
    ∃ e ∈ ((createExpense (Except.ok ⟨0, "", 450, "Food", 10⟩)
        { rows := [], nextId := 1 }).2).rows, e.description = "" := by
  constructor
  · rfl
  · exact ⟨⟨1, "", 450, "Food", 10⟩, by decide, rfl⟩

/-- C9 amended: the handlers store the submitted description verbatim and do
not enforce non-emptiness (the schema only enforces NOT NULL): after a
create or update every stored row is either an originally stored row or
carries exactly the submitted description, so descriptions stay non-empty
exactly as long as every submitted description is non-empty. -/
theorem stored_description_is_submitted (idStr : String) (exp : Expense) (s : ExpenseStore) :
    (∀ e ∈ ((createExpense (Except.ok exp) s).2).rows,
      e ∈ s.rows ∨ e.description = exp.description) ∧
    (∀ e ∈ ((updateExpense idStr (Except.ok exp) s).2).rows,
      e ∈ s.rows ∨ e.description = exp.description) ∧
    ((∀ e ∈ s.rows, e.description ≠ "") → exp.description ≠ "" →
      (∀ e ∈ ((createExpense (Except.ok exp) s).2).rows, e.description ≠ "") ∧
      (∀ e ∈ ((updateExpense idStr (Except.ok exp) s).2).rows, e.description ≠ "")) := by
  have hc : ∀ e ∈ ((createExpense (Except.ok exp) s).2).rows,
      e ∈ s.rows ∨ e.description = exp.description := by
    intro e he
    have he' : e ∈ s.rows ++ [{ exp with id := s.nextId }] := he
    rcases List.mem_append.mp he' with h | h
    · exact Or.inl h
    · right
      have hx : e = { exp with id := s.nextId } := by simpa using h
      rw [hx]
  have hu : ∀ e ∈ ((updateExpense idStr (Except.ok exp) s).2).rows,
      e ∈ s.rows ∨ e.description = exp.description := by
    intro e he
    rw [updateExpense_ok_snd_rows] at he
    unfold execUpdateRawId at he
    cases hp : parsePgInt idStr with
    | none =>
      rw [hp] at he
      exact Or.inl he
    | some i =>
      rw [hp] at he
      unfold updateWhereId at he
      dsimp only at he
      rcases List.mem_map.mp he with ⟨a, ha, rfl⟩
      by_cases hid : (a.id == i) = true
      · simp only [hid, if_true]
        right
        trivial
      · simp only [Bool.not_eq_true] at hid
        simp only [hid, Bool.false_eq_true, if_false]
        exact Or.inl ha
  refine ⟨hc, hu, fun hs hexp => ⟨?_, ?_⟩⟩
  · intro e he
    rcases hc e he with h | h
    · exact hs e h
    · rw [h]; exact hexp
  · intro e he
    rcases hu e he with h | h
    · exact hs e h
    · rw [h]; exact hexp

/-- Witness for C9 at a concrete create and update with non-empty
descriptions over a one-row store. -/
theorem stored_description_is_submitted_witness :
    (∀ e ∈ ((createExpense (Except.ok ⟨0, "Coffee", 450, "Food", 10⟩)
        { rows := [⟨1, "a", 2, "b", 3⟩], nextId := 2 }).2).rows, e.description ≠ "") ∧
    (∀ e ∈ ((updateExpense "1" (Except.ok ⟨0, "Coffee", 450, "Food", 10⟩)
        { rows := [⟨1, "a", 2, "b", 3⟩], nextId := 2 }).2).rows, e.description ≠ "") :=
  (stored_description_is_submitted "1" ⟨0, "Coffee", 450, "Food", 10⟩
    { rows := [⟨1, "a", 2, "b", 3⟩], nextId := 2 }).2.2 (by decide) (by decide)

end ExpenseTracker
